import Mathlib

/-!
Verification of `msal_extensions/libsecret.py`: a shallow embedding of the
`LibSecretAgent` adapter (schema derivation at construction, the
`save`/`load`/`clear` CRUD façade) and the `trial_run` availability probe,
together with theorems settling the specification's claims.

Python dicts with string keys are embedded as association lists
`List (String × α)`; `dict.get(k, default)` becomes first-match lookup with a
default.  The external OS secret service (libsecret / GNOME Secret, not part
of this repository) is embedded as a record of stateful, fallible operations,
and — where a claim needs a concrete functional backend — as a store modelled
from the spec's external-interface contract.
-/

/-- `Secret.SchemaAttributeType`: the three attribute types libsecret accepts. -/
inductive SchemaAttributeType : Type
  | STRING
  | INTEGER
  | BOOLEAN
deriving DecidableEq, Repr

/-- Python `d.get(k, default)` on a string-keyed dict embedded as an
association list: value at the first matching key, else the default. -/
def dictGet {α : Type} (d : List (String × α)) (k : String) (default : α) : α :=
  match d.find? (fun kv => kv.1 = k) with
  | some kv => kv.2
  | none => default

/-- Python `d.get(k)` / `k in d` combined: `some` value at the first matching
key, `none` when the key is absent. -/
def dictFind {α : Type} (d : List (String × α)) (k : String) : Option α :=
  (d.find? (fun kv => kv.1 = k)).map (fun kv => kv.2)

/-- `Secret.Schema`: a named schema together with its attribute-type map
(the result of `Secret.Schema.new(name, flags, type_map)`; flags are always
`NONE` in this code, so they are omitted). -/
structure Schema : Type where
  name : String
  attrTypes : List (String × SchemaAttributeType)
deriving DecidableEq, Repr

/-- The `LibSecretAgent` object: the four fields assigned in `__init__`. -/
structure LibSecretAgent : Type where
  _collection : Option String
  _attributes : List (String × String)
  _label : String
  _schema : Schema
deriving DecidableEq, Repr

/-- `LibSecretAgent.__init__`: stores collection, `attributes or {}`, label,
and derives the schema with one type entry per attribute key —
`(attribute_types or {}).get(k, STRING)` for each `k` in the attributes.
`attributes = none` embeds Python `attributes=None`. -/
def LibSecretAgent.init
    (schema_name : String)
    (attributes : Option (List (String × String)))
    (label : String)
    (attribute_types : Option (List (String × SchemaAttributeType)))
    (collection : Option String) : LibSecretAgent :=
  let attrs := attributes.getD []
  { _collection := collection
    _attributes := attrs
    _label := label
    _schema :=
      { name := schema_name
        attrTypes := attrs.map (fun kv =>
          (kv.1, dictGet (attribute_types.getD []) kv.1 SchemaAttributeType.STRING)) } }

/-- Python exceptions that can arise around the probe: `GLib.Error` raised by
the secret service, `AssertionError` from a failed `assert`, and any other
exception class. -/
inductive PyError : Type
  | glib (msg : String)
  | assertionFailed
  | other (msg : String)
deriving DecidableEq, Repr

/-- The OS secret service, as the adapter consumes it: three blocking,
fallible, stateful operations.  Each returns its result (or a raised error)
together with the service state after the call — a raised exception does not
roll back side effects already performed. -/
structure ServiceBehavior (σ : Type) : Type where
  store : Schema → List (String × String) → Option String → String → String → σ →
    Except PyError Bool × σ
  lookup : Schema → List (String × String) → σ → Except PyError (Option String) × σ
  clear : Schema → List (String × String) → σ → Except PyError Bool × σ

/-- `LibSecretAgent.save`: delegates to `Secret.password_store_sync(schema,
attributes, collection, label, data, None)` with the fields set at
construction. -/
def LibSecretAgent.save {σ : Type} (a : LibSecretAgent) (svc : ServiceBehavior σ)
    (data : String) (s : σ) : Except PyError Bool × σ :=
  svc.store a._schema a._attributes a._collection a._label data s

/-- `LibSecretAgent.load`: delegates to `Secret.password_lookup_sync(schema,
attributes, None)`. -/
def LibSecretAgent.load {σ : Type} (a : LibSecretAgent) (svc : ServiceBehavior σ)
    (s : σ) : Except PyError (Option String) × σ :=
  svc.lookup a._schema a._attributes s

/-- `LibSecretAgent.clear`: delegates to `Secret.password_clear_sync(schema,
attributes, None)`. -/
def LibSecretAgent.clear {σ : Type} (a : LibSecretAgent) (svc : ServiceBehavior σ)
    (s : σ) : Except PyError Bool × σ :=
  svc.clear a._schema a._attributes s

/-- One request issued to the secret service, carrying exactly the arguments
the corresponding `Secret.password_*_sync` call receives from the agent. -/
inductive Request : Type
  | storeReq (schema : Schema) (attributes : List (String × String))
      (collection : Option String) (label : String) (data : String)
  | lookupReq (schema : Schema) (attributes : List (String × String))
  | clearReq (schema : Schema) (attributes : List (String × String))
deriving DecidableEq, Repr

/-- The (schema, attributes) filter carried by a request. -/
def Request.filter : Request → Schema × List (String × String)
  | .storeReq sch ats _ _ _ => (sch, ats)
  | .lookupReq sch ats => (sch, ats)
  | .clearReq sch ats => (sch, ats)

/-- Instrumentation: the same service, with the state enlarged to also record
every request issued, in order. -/
def withTrace {σ : Type} (svc : ServiceBehavior σ) : ServiceBehavior (σ × List Request) where
  store := fun sch ats col lab d st =>
    let r := svc.store sch ats col lab d st.1
    (r.1, (r.2, st.2 ++ [Request.storeReq sch ats col lab d]))
  lookup := fun sch ats st =>
    let r := svc.lookup sch ats st.1
    (r.1, (r.2, st.2 ++ [Request.lookupReq sch ats]))
  clear := fun sch ats st =>
    let r := svc.clear sch ats st.1
    (r.1, (r.2, st.2 ++ [Request.clearReq sch ats]))

/-- The throwaway adapter `trial_run` constructs:
`LibSecretAgent("Test Schema", {"attr1": "foo", "attr2": "bar"})` with the
defaults `label=""`, `attribute_types=None`, `collection=None`. -/
def trialAgent : LibSecretAgent :=
  LibSecretAgent.init "Test Schema" (some [("attr1", "foo"), ("attr2", "bar")]) "" none none

/-- The fixed test payload of `trial_run`. -/
def trialPayload : String := "Test Data"

/-- Python exception propagation for one statement: if the call raised, the
remaining statements are skipped and the exception propagates; otherwise the
continuation runs on the resulting state. -/
def step {α σ : Type} (r : Except PyError α × σ)
    (k : α → σ → Except PyError Unit × σ) : Except PyError Unit × σ :=
  match r with
  | (.error e, s) => (.error e, s)
  | (.ok a, s) => k a s

@[simp] lemma step_error {α σ : Type} (e : PyError) (s : σ)
    (k : α → σ → Except PyError Unit × σ) : step (.error e, s) k = (.error e, s) := rfl

@[simp] lemma step_ok {α σ : Type} (a : α) (s : σ)
    (k : α → σ → Except PyError Unit × σ) : step (.ok a, s) k = k a s := rfl

/-- The `try` block of `trial_run`: construct the throwaway agent, `save` the
payload (its boolean result is discarded), `load` and `assert` the result
equals the payload, then `clear` (result also discarded).  The first raised
exception aborts the remaining steps. -/
def trialBody {σ : Type} (svc : ServiceBehavior σ) (s : σ) : Except PyError Unit × σ :=
  step (trialAgent.save svc trialPayload s) (fun _ s1 =>
    step (trialAgent.load svc s1) (fun v s2 =>
      if v = some trialPayload then
        step (trialAgent.clear svc s2) (fun _ s3 => (.ok (), s3))
      else
        (.error PyError.assertionFailed, s2)))

/-- The message `trial_run` logs on failure, with the remediation link. -/
def trialMessage : String :=
  "libsecret did not perform properly. Please refer to https://github.com/AzureAD/microsoft-authentication-extensions-for-python/wiki/Encryption-on-Linux"

/-- The logger state: the records emitted through `logger.exception` (detailed,
with stack trace) and through `logger.warning` (terse, user-visible). -/
structure LogState : Type where
  exceptionRecords : List String
  warningRecords : List String
deriving DecidableEq, Repr

/-- Whether an exception is caught by
`except (gi.repository.GLib.Error, AssertionError)`. -/
def caughtByProbe : PyError → Bool
  | .glib _ => true
  | .assertionFailed => true
  | .other _ => false

/-- The logging effect of the probe's `except` clause: when the outcome is an
exception matched by `except (GLib.Error, AssertionError)`, both the detailed
(`logger.exception`) record and the terse user-visible (`logger.warning`)
record are appended; any other outcome leaves the logs untouched. -/
def logIfCaught (r : Except PyError Unit) (log : LogState) : LogState :=
  match r with
  | .ok _ => log
  | .error e =>
    if caughtByProbe e then
      { exceptionRecords := log.exceptionRecords ++ [trialMessage]
        warningRecords := log.warningRecords ++ [trialMessage] }
    else
      log

/-- `trial_run`: run the try block; on an exception matched by the `except`
clause, emit the detailed record and the terse user-visible record (both with
`trialMessage`), then re-raise the original exception unchanged; any other
exception propagates with no logging. -/
def trial_run {σ : Type} (svc : ServiceBehavior σ) (s : σ) (log : LogState) :
    (Except PyError Unit × σ) × LogState :=
  (trialBody svc s, logIfCaught (trialBody svc s).1 log)

/-- One method call a caller can make on an adapter instance. -/
inductive AgentOp : Type
  | saveOp (data : String)
  | loadOp
  | clearOp
deriving DecidableEq, Repr

/-- The request a given agent issues for a given method call. -/
def opRequest (a : LibSecretAgent) : AgentOp → Request
  | .saveOp d => Request.storeReq a._schema a._attributes a._collection a._label d
  | .loadOp => Request.lookupReq a._schema a._attributes
  | .clearOp => Request.clearReq a._schema a._attributes

/-- Execute one method call against the service, keeping the service state
(results and exceptions are returned to the caller, who may continue). -/
def runOp {σ : Type} (svc : ServiceBehavior σ) (a : LibSecretAgent) (op : AgentOp)
    (s : σ) : σ :=
  match op with
  | .saveOp d => (a.save svc d s).2
  | .loadOp => (a.load svc s).2
  | .clearOp => (a.clear svc s).2

/-- Execute a sequence of method calls against the service. -/
def runOps {σ : Type} (svc : ServiceBehavior σ) (a : LibSecretAgent)
    (ops : List AgentOp) (s : σ) : σ :=
  ops.foldl (fun st op => runOp svc a op st) s

/-- Modelled from the spec: one item held by the OS secret service (the
external collaborator of §6, not code of this repository) — a payload tagged
with a schema name, an attribute set, and a display label. -/
structure SecretItem : Type where
  schemaName : String
  attributes : List (String × String)
  label : String
  payload : String
deriving DecidableEq, Repr

/-- Modelled from the spec: the state of the OS secret service, a bag of
stored items. -/
abbrev SecretStore : Type := List SecretItem

/-- Modelled from the spec: two attribute sets match when they hold the same
key-value pairs ("order is irrelevant — it is a filter predicate"). -/
def attrsMatch (a b : List (String × String)) : Bool :=
  a.all (fun kv => decide (kv ∈ b)) && b.all (fun kv => decide (kv ∈ a))

/-- Modelled from the spec: an item matches a (schema, attributes) filter when
it is tagged with the same schema name and a matching attribute set. -/
def itemMatches (schemaName : String) (attrs : List (String × String))
    (it : SecretItem) : Bool :=
  decide (it.schemaName = schemaName) && attrsMatch attrs it.attributes

/-- Modelled from the spec: a functional OS secret service ("when the OS
service is functional", §6/§4.2).  `store` accepts the write, replacing any
item matching (schema name, attributes) — one item per unique attribute
combination; `lookup` returns the payload of a matching item, or `none`;
`clear` deletes every matching item and returns whether any matched.  No
operation raises. -/
def functionalService : ServiceBehavior SecretStore where
  store := fun sch ats _col lab data store =>
    (.ok true,
      ({ schemaName := sch.name, attributes := ats, label := lab, payload := data } :
          SecretItem) ::
        store.filter (fun it => !(itemMatches sch.name ats it)))
  lookup := fun sch ats store =>
    (.ok ((store.find? (itemMatches sch.name ats)).map (fun it => it.payload)), store)
  clear := fun sch ats store =>
    (.ok (store.any (itemMatches sch.name ats)),
      store.filter (fun it => !(itemMatches sch.name ats it)))

lemma attrsMatch_self (a : List (String × String)) : attrsMatch a a = true := by
  simp [attrsMatch, List.all_eq_true]

lemma itemMatches_self (sch : Schema) (ats : List (String × String)) (lab data : String) :
    itemMatches sch.name ats
      ({ schemaName := sch.name, attributes := ats, label := lab, payload := data } :
        SecretItem) = true := by
  simp [itemMatches, attrsMatch_self]

lemma trialAgent_attrTypes : trialAgent._schema.attrTypes =
    [("attr1", SchemaAttributeType.STRING), ("attr2", SchemaAttributeType.STRING)] := by
  decide

lemma dictGet_eq_getD {α : Type} (d : List (String × α)) (k : String) (v : α) :
    dictGet d k v = (dictFind d k).getD v := by
  unfold dictGet dictFind
  cases d.find? (fun kv => kv.1 = k) <;> rfl

lemma dictFind_map_keyed {β : Type} (g : String → β) (l : List (String × String))
    (k : String) :
    dictFind (l.map (fun kv => (kv.1, g kv.1))) k =
      if k ∈ l.map Prod.fst then some (g k) else none := by
  induction l with
  | nil => rfl
  | cons hd tl ih =>
    by_cases h : hd.1 = k
    · subst h
      simp [dictFind, List.find?_cons_of_pos]
    · rw [List.map_cons, List.map_cons]
      unfold dictFind
      rw [List.find?_cons_of_neg _ (by simp [h])]
      unfold dictFind at ih
      rw [ih]
      have h2 : ¬k = hd.1 := fun h1 => h h1.symm
      by_cases hm : k ∈ List.map Prod.fst tl
      · rw [if_pos hm, if_pos (List.mem_cons_of_mem _ hm)]
      · rw [if_neg hm, if_neg (by rw [List.mem_cons]; exact fun hc => hc.elim h2 hm)]

/-- C1: the schema derived at construction has a type map whose keys are
exactly the keys of `attributes`, each key mapped to its entry in
`attribute_types` when present and to STRING otherwise; keys of
`attribute_types` absent from `attributes` contribute no entry. -/
theorem schema_derivation_types (schema_name label : String)
    (attributes : List (String × String))
    (attribute_types : Option (List (String × SchemaAttributeType)))
    (collection : Option String) (k : String) :
    (LibSecretAgent.init schema_name (some attributes) label attribute_types
        collection)._schema.attrTypes.map Prod.fst = attributes.map Prod.fst ∧
    dictFind (LibSecretAgent.init schema_name (some attributes) label attribute_types
        collection)._schema.attrTypes k =
      (if k ∈ attributes.map Prod.fst
       then some ((dictFind (attribute_types.getD []) k).getD SchemaAttributeType.STRING)
       else none) := by
  constructor
  · simp [LibSecretAgent.init]
  · rw [show (LibSecretAgent.init schema_name (some attributes) label attribute_types
        collection)._schema.attrTypes = attributes.map (fun kv =>
          (kv.1, dictGet (attribute_types.getD []) kv.1 SchemaAttributeType.STRING))
        from rfl]
    have hfun : (fun kv : String × String =>
          (kv.1, dictGet (attribute_types.getD []) kv.1 SchemaAttributeType.STRING)) =
        (fun kv : String × String =>
          (kv.1, (dictFind (attribute_types.getD []) kv.1).getD SchemaAttributeType.STRING)) := by
      funext kv
      rw [dictGet_eq_getD]
    rw [hfun]
    exact dictFind_map_keyed
      (fun x => (dictFind (attribute_types.getD []) x).getD SchemaAttributeType.STRING)
      attributes k

theorem schema_derivation_types_witness :
    dictFind (LibSecretAgent.init "msal" (some [("a", "1"), ("b", "2")]) "lbl"
        (some [("b", SchemaAttributeType.INTEGER), ("z", SchemaAttributeType.BOOLEAN)])
        none)._schema.attrTypes "b" = some SchemaAttributeType.INTEGER := by
  rw [(schema_derivation_types "msal" "lbl" [("a", "1"), ("b", "2")]
      (some [("b", SchemaAttributeType.INTEGER), ("z", SchemaAttributeType.BOOLEAN)])
      none "b").2]
  decide

/-- C10: construction is total; with `attributes=None` it behaves exactly as
with an empty mapping, producing a schema with an empty type map and an empty
stored attribute set. -/
theorem init_total_none_attributes (schema_name label : String)
    (attribute_types : Option (List (String × SchemaAttributeType)))
    (collection : Option String) :
    LibSecretAgent.init schema_name none label attribute_types collection =
      LibSecretAgent.init schema_name (some []) label attribute_types collection ∧
    (LibSecretAgent.init schema_name none label attribute_types collection)._attributes
        = [] ∧
    (LibSecretAgent.init schema_name none label attribute_types
        collection)._schema.attrTypes = [] ∧
    (LibSecretAgent.init schema_name none label attribute_types
        collection)._schema.name = schema_name :=
  ⟨rfl, rfl, rfl, rfl⟩

theorem init_total_none_attributes_witness :
    LibSecretAgent.init "Test Schema" none "x"
        (some [("z", SchemaAttributeType.BOOLEAN)]) (some "login") =
      LibSecretAgent.init "Test Schema" (some []) "x"
        (some [("z", SchemaAttributeType.BOOLEAN)]) (some "login") :=
  (init_total_none_attributes "Test Schema" "x"
      (some [("z", SchemaAttributeType.BOOLEAN)]) (some "login")).1

/-- C7: two adapters built with identical (schema_name, attributes,
attribute_types) but different labels and default collections issue identical
`load`/`clear` requests and get identical results against any service state:
label and collection do not participate in the lookup/clear filter. -/
theorem load_clear_label_independent {σ : Type} (svc : ServiceBehavior σ)
    (schema_name : String) (attributes : Option (List (String × String)))
    (attribute_types : Option (List (String × SchemaAttributeType)))
    (label1 label2 : String) (s : σ) :
    (LibSecretAgent.init schema_name attributes label1 attribute_types none).load svc s =
      (LibSecretAgent.init schema_name attributes label2 attribute_types none).load svc s ∧
    (LibSecretAgent.init schema_name attributes label1 attribute_types none).clear svc s =
      (LibSecretAgent.init schema_name attributes label2 attribute_types none).clear svc s ∧
    opRequest (LibSecretAgent.init schema_name attributes label1 attribute_types none)
        AgentOp.loadOp =
      opRequest (LibSecretAgent.init schema_name attributes label2 attribute_types none)
        AgentOp.loadOp ∧
    opRequest (LibSecretAgent.init schema_name attributes label1 attribute_types none)
        AgentOp.clearOp =
      opRequest (LibSecretAgent.init schema_name attributes label2 attribute_types none)
        AgentOp.clearOp :=
  ⟨rfl, rfl, rfl, rfl⟩

theorem load_clear_label_independent_witness :
    (LibSecretAgent.init "MSALCache" (some [("k", "v")]) "" none none).load
        functionalService [] =
      (LibSecretAgent.init "MSALCache" (some [("k", "v")]) "other label" none none).load
        functionalService [] :=
  (load_clear_label_independent functionalService "MSALCache" (some [("k", "v")])
      none "" "other label" []).1

/-- C6: `save`, `load` and `clear` contain no error interception: an error
raised by the underlying service call is returned unchanged (same error, same
resulting service state). -/
theorem crud_error_propagation {σ : Type} (svc : ServiceBehavior σ)
    (a : LibSecretAgent) (data : String) (s s' : σ) (e : PyError) :
    (svc.store a._schema a._attributes a._collection a._label data s = (.error e, s') →
      a.save svc data s = (.error e, s')) ∧
    (svc.lookup a._schema a._attributes s = (.error e, s') →
      a.load svc s = (.error e, s')) ∧
    (svc.clear a._schema a._attributes s = (.error e, s') →
      a.clear svc s = (.error e, s')) :=
  ⟨fun h => h, fun h => h, fun h => h⟩

/-- A service whose every operation raises `e` and leaves the state unchanged. -/
def failingService (e : PyError) : ServiceBehavior Unit where
  store := fun _ _ _ _ _ s => (.error e, s)
  lookup := fun _ _ s => (.error e, s)
  clear := fun _ _ s => (.error e, s)

theorem crud_error_propagation_witness :
    trialAgent.save (failingService (.glib "no such secret service")) "d" () =
      (.error (.glib "no such secret service"), ()) :=
  (crud_error_propagation (failingService (.glib "no such secret service"))
      trialAgent "d" () () (.glib "no such secret service")).1 rfl

/-- C2: when the probe's try block fails with a service-level `GLib.Error` or
with the `AssertionError` from the payload comparison, `trial_run` appends the
remediation message to both the detailed (`logger.exception`) records and the
terse user-visible (`logger.warning`) records, and returns the original
failure unchanged (same error, same post-failure service state); the message
carries the remediation-documentation link. -/
theorem probe_logs_twice_and_reraises {σ : Type} (svc : ServiceBehavior σ)
    (s s' : σ) (log : LogState) (e : PyError)
    (hrun : trialBody svc s = (.error e, s'))
    (hkind : e = PyError.assertionFailed ∨ ∃ m, e = PyError.glib m) :
    trial_run svc s log =
      ((.error e, s'),
        { exceptionRecords := log.exceptionRecords ++ [trialMessage]
          warningRecords := log.warningRecords ++ [trialMessage] }) ∧
    trialMessage = "libsecret did not perform properly. Please refer to " ++
      "https://github.com/AzureAD/microsoft-authentication-extensions-for-python/wiki/Encryption-on-Linux" := by
  refine ⟨?_, rfl⟩
  unfold trial_run
  rw [hrun]
  rcases hkind with h | ⟨m, h⟩ <;> subst h <;> rfl

theorem probe_logs_twice_and_reraises_witness :
    trial_run (failingService (.glib "locked")) () ⟨[], []⟩ =
      ((.error (.glib "locked"), ()), ⟨[trialMessage], [trialMessage]⟩) :=
  (probe_logs_twice_and_reraises (failingService (.glib "locked")) () () ⟨[], []⟩
      (.glib "locked") rfl (Or.inr ⟨"locked", rfl⟩)).1

/-- C9: the probe's `except` clause covers exactly the two kinds
`GLib.Error` and `AssertionError`; an exception of any other kind raised
during the sequence propagates to the caller with neither log record
emitted. -/
theorem probe_other_errors_uncaught {σ : Type} (svc : ServiceBehavior σ)
    (s s' : σ) (log : LogState) (m : String)
    (hrun : trialBody svc s = (.error (.other m), s')) :
    trial_run svc s log = ((.error (.other m), s'), log) ∧
    (∀ e : PyError, caughtByProbe e = true ↔
      (e = PyError.assertionFailed ∨ ∃ msg, e = PyError.glib msg)) := by
  constructor
  · unfold trial_run
    rw [hrun]
    rfl
  · intro e
    cases e with
    | glib msg => exact ⟨fun _ => Or.inr ⟨msg, rfl⟩, fun _ => rfl⟩
    | assertionFailed => exact ⟨fun _ => Or.inl rfl, fun _ => rfl⟩
    | other msg =>
      constructor
      · intro hc
        exact absurd hc (by simp [caughtByProbe])
      · intro hc
        rcases hc with h | ⟨msg2, h⟩ <;> exact PyError.noConfusion h

theorem probe_other_errors_uncaught_witness :
    trial_run (failingService (.other "TypeError")) () ⟨[], []⟩ =
      ((.error (.other "TypeError"), ()), ⟨[], []⟩) :=
  (probe_other_errors_uncaught (failingService (.other "TypeError")) () ()
      ⟨[], []⟩ "TypeError" rfl).1

lemma runOp_withTrace {σ : Type} (svc : ServiceBehavior σ) (a : LibSecretAgent)
    (op : AgentOp) (s : σ) (tr : List Request) :
    runOp (withTrace svc) a op (s, tr) = (runOp svc a op s, tr ++ [opRequest a op]) := by
  cases op <;> rfl

lemma runOps_withTrace {σ : Type} (svc : ServiceBehavior σ) (a : LibSecretAgent)
    (ops : List AgentOp) (s : σ) (tr : List Request) :
    runOps (withTrace svc) a ops (s, tr) =
      (runOps svc a ops s, tr ++ ops.map (opRequest a)) := by
  induction ops generalizing s tr with
  | nil => simp [runOps]
  | cons op rest ih =>
    show runOps (withTrace svc) a rest (runOp (withTrace svc) a op (s, tr)) = _
    rw [runOp_withTrace, ih]
    simp [runOps, List.foldl_cons, List.append_assoc]

/-- C5: over any sequence of method calls against any service, every request
the adapter issues carries exactly the (schema, attributes) pair derived at
construction, and `save` additionally always passes the construction-time
collection and label: no operation mutates the adapter's fields, so the
filter is immutable for the adapter's lifetime. -/
theorem filter_immutable_across_ops {σ : Type} (svc : ServiceBehavior σ)
    (schema_name label : String) (attributes : Option (List (String × String)))
    (attribute_types : Option (List (String × SchemaAttributeType)))
    (collection : Option String) (ops : List AgentOp) (s : σ) :
    (runOps (withTrace svc)
        (LibSecretAgent.init schema_name attributes label attribute_types collection)
        ops (s, [])).2 =
      ops.map (opRequest
        (LibSecretAgent.init schema_name attributes label attribute_types collection)) ∧
    (∀ op : AgentOp,
      (opRequest (LibSecretAgent.init schema_name attributes label attribute_types
          collection) op).filter =
        ((LibSecretAgent.init schema_name attributes label attribute_types
            collection)._schema,
          (LibSecretAgent.init schema_name attributes label attribute_types
            collection)._attributes)) ∧
    (∀ d : String,
      opRequest (LibSecretAgent.init schema_name attributes label attribute_types
          collection) (AgentOp.saveOp d) =
        Request.storeReq
          (LibSecretAgent.init schema_name attributes label attribute_types
            collection)._schema
          (LibSecretAgent.init schema_name attributes label attribute_types
            collection)._attributes
          collection label d) := by
  refine ⟨?_, ?_, ?_⟩
  · rw [runOps_withTrace]
    simp
  · intro op
    cases op <;> rfl
  · intro d
    rfl

theorem filter_immutable_across_ops_witness :
    (runOps (withTrace functionalService)
        (LibSecretAgent.init "Test Schema" (some [("attr1", "foo"), ("attr2", "bar")]) ""
          none none)
        [AgentOp.saveOp "x", AgentOp.loadOp, AgentOp.clearOp] (([] : SecretStore), [])).2 =
      [AgentOp.saveOp "x", AgentOp.loadOp, AgentOp.clearOp].map (opRequest
        (LibSecretAgent.init "Test Schema" (some [("attr1", "foo"), ("attr2", "bar")]) ""
          none none)) :=
  (filter_immutable_across_ops functionalService "Test Schema" ""
      (some [("attr1", "foo"), ("attr2", "bar")]) none none
      [AgentOp.saveOp "x", AgentOp.loadOp, AgentOp.clearOp] []).1

/-- The three requests of a full probe run, in order: store the fixed payload
under the fixed test schema and its two string attributes, look it up, then
clear it. -/
def probeRequests : List Request :=
  [ Request.storeReq
      { name := "Test Schema"
        attrTypes := [("attr1", SchemaAttributeType.STRING),
          ("attr2", SchemaAttributeType.STRING)] }
      [("attr1", "foo"), ("attr2", "bar")] none "" "Test Data",
    Request.lookupReq
      { name := "Test Schema"
        attrTypes := [("attr1", SchemaAttributeType.STRING),
          ("attr2", SchemaAttributeType.STRING)] }
      [("attr1", "foo"), ("attr2", "bar")],
    Request.clearReq
      { name := "Test Schema"
        attrTypes := [("attr1", SchemaAttributeType.STRING),
          ("attr2", SchemaAttributeType.STRING)] }
      [("attr1", "foo"), ("attr2", "bar")] ]

/-- The store call the probe's `save` performs, on underlying state `s`. -/
def probeStore {σ : Type} (svc : ServiceBehavior σ) (s : σ) : Except PyError Bool × σ :=
  svc.store trialAgent._schema trialAgent._attributes trialAgent._collection
    trialAgent._label trialPayload s

/-- The lookup call the probe's `load` performs, after the store call. -/
def probeLookup {σ : Type} (svc : ServiceBehavior σ) (s : σ) :
    Except PyError (Option String) × σ :=
  svc.lookup trialAgent._schema trialAgent._attributes (probeStore svc s).2

/-- The clear call the probe performs, after the lookup call. -/
def probeClear {σ : Type} (svc : ServiceBehavior σ) (s : σ) : Except PyError Bool × σ :=
  svc.clear trialAgent._schema trialAgent._attributes (probeLookup svc s).2

lemma trialBody_linear {σ : Type} (svc : ServiceBehavior σ) (s : σ) :
    (∃ n, n ≤ 3 ∧ (trialBody (withTrace svc) (s, [])).2.2 = probeRequests.take n) ∧
    ((trialBody (withTrace svc) (s, [])).1 = Except.ok () →
      (trialBody (withTrace svc) (s, [])).2.2 = probeRequests) ∧
    (∀ e : PyError, (probeStore svc s).1 = .error e →
      (trialBody (withTrace svc) (s, [])).1 = .error e ∧
      (trialBody (withTrace svc) (s, [])).2.2 = probeRequests.take 1) ∧
    (∀ (b : Bool) (e : PyError), (probeStore svc s).1 = .ok b →
      (probeLookup svc s).1 = .error e →
      (trialBody (withTrace svc) (s, [])).1 = .error e ∧
      (trialBody (withTrace svc) (s, [])).2.2 = probeRequests.take 2) ∧
    (∀ (b : Bool) (v : Option String), (probeStore svc s).1 = .ok b →
      (probeLookup svc s).1 = .ok v → v ≠ some trialPayload →
      (trialBody (withTrace svc) (s, [])).1 = .error PyError.assertionFailed ∧
      (trialBody (withTrace svc) (s, [])).2.2 = probeRequests.take 2) ∧
    (∀ b : Bool, (probeStore svc s).1 = .ok b →
      (probeLookup svc s).1 = .ok (some trialPayload) →
      (trialBody (withTrace svc) (s, [])).2.2 = probeRequests ∧
      (∀ e : PyError, (probeClear svc s).1 = .error e →
        (trialBody (withTrace svc) (s, [])).1 = .error e) ∧
      (∀ b2 : Bool, (probeClear svc s).1 = .ok b2 →
        (trialBody (withTrace svc) (s, [])).1 = .ok ())) := by
  unfold trialBody LibSecretAgent.save LibSecretAgent.load LibSecretAgent.clear withTrace
    probeClear probeLookup probeStore
  rcases h0 : svc.store trialAgent._schema trialAgent._attributes trialAgent._collection
      trialAgent._label trialPayload s with ⟨r0, s1⟩
  simp only [h0]
  cases r0 with
  | error e0 =>
    refine ⟨⟨1, by decide, rfl⟩, ?_, ?_, ?_, ?_, ?_⟩
    · intro h; cases h
    · intro e he
      injection he with h
      subst h
      exact ⟨rfl, rfl⟩
    · intro b e hb _; cases hb
    · intro b v hb _ _; cases hb
    · intro b hb _; cases hb
  | ok b0 =>
    simp only [step_ok]
    rcases h1 : svc.lookup trialAgent._schema trialAgent._attributes s1 with ⟨r1, s2⟩
    simp only [h1]
    cases r1 with
    | error e1 =>
      refine ⟨⟨2, by decide, rfl⟩, ?_, ?_, ?_, ?_, ?_⟩
      · intro h; cases h
      · intro e he; cases he
      · intro b e _ he
        injection he with h
        subst h
        exact ⟨rfl, rfl⟩
      · intro b v _ hv2 _; cases hv2
      · intro b _ hv2; cases hv2
    | ok v =>
      simp only [step_ok]
      by_cases hv : v = some trialPayload
      · rw [if_pos hv]
        rcases h2 : svc.clear trialAgent._schema trialAgent._attributes s2 with ⟨r2, s3⟩
        simp only [h2]
        cases r2 with
        | error e2 =>
          refine ⟨⟨3, by decide, rfl⟩, ?_, ?_, ?_, ?_, ?_⟩
          · intro h; cases h
          · intro e he; cases he
          · intro b e _ he; cases he
          · intro b v2 _ hv2 hne
            injection hv2 with h
            subst h
            exact absurd hv hne
          · intro b _ _
            refine ⟨rfl, ?_, ?_⟩
            · intro e he
              injection he with h
              subst h
              rfl
            · intro b2 hb2; cases hb2
        | ok b2 =>
          refine ⟨⟨3, by decide, rfl⟩, fun _ => rfl, ?_, ?_, ?_, ?_⟩
          · intro e he; cases he
          · intro b e _ he; cases he
          · intro b v2 _ hv2 hne
            injection hv2 with h
            subst h
            exact absurd hv hne
          · intro b _ _
            refine ⟨rfl, ?_, ?_⟩
            · intro e he; cases he
            · intro b3 _; rfl
      · rw [if_neg hv]
        refine ⟨⟨2, by decide, rfl⟩, ?_, ?_, ?_, ?_, ?_⟩
        · intro h; cases h
        · intro e he; cases he
        · intro b e _ he; cases he
        · intro b v2 _ hv2 _
          injection hv2 with h
          subst h
          exact ⟨rfl, rfl⟩
        · intro b _ hsome
          injection hsome with h
          exact absurd h hv

/-- C3: the probe performs exactly the linear sequence store → lookup → clear
with the fixed test schema name "Test Schema", the two fixed string
attributes, and the fixed payload "Test Data", and every failure aborts the
remaining steps: if the store call raises, only the store request was issued
and its error is the probe's outcome; if the lookup call raises, exactly the
store and lookup requests were issued; if the lookup returns a value other
than the payload, the assert fails the probe with `AssertionError` and the
clear request is never issued; if the lookup returns the payload exactly, all
three requests are issued (a raising clear propagating its error, a
succeeding one completing the probe); and in every case the issued requests
are a prefix of the fixed three-request sequence — no retry, no extra
request. -/
theorem probe_linear_sequence {σ : Type} (svc : ServiceBehavior σ) (s : σ)
    (log : LogState) :
    (∃ n, n ≤ 3 ∧
      (trial_run (withTrace svc) (s, []) log).1.2.2 = probeRequests.take n) ∧
    ((trial_run (withTrace svc) (s, []) log).1.1 = Except.ok () →
      (trial_run (withTrace svc) (s, []) log).1.2.2 = probeRequests) ∧
    (∀ e : PyError, (probeStore svc s).1 = .error e →
      (trial_run (withTrace svc) (s, []) log).1.1 = .error e ∧
      (trial_run (withTrace svc) (s, []) log).1.2.2 = probeRequests.take 1) ∧
    (∀ (b : Bool) (e : PyError), (probeStore svc s).1 = .ok b →
      (probeLookup svc s).1 = .error e →
      (trial_run (withTrace svc) (s, []) log).1.1 = .error e ∧
      (trial_run (withTrace svc) (s, []) log).1.2.2 = probeRequests.take 2) ∧
    (∀ (b : Bool) (v : Option String), (probeStore svc s).1 = .ok b →
      (probeLookup svc s).1 = .ok v → v ≠ some trialPayload →
      (trial_run (withTrace svc) (s, []) log).1.1 = .error PyError.assertionFailed ∧
      (trial_run (withTrace svc) (s, []) log).1.2.2 = probeRequests.take 2) ∧
    (∀ b : Bool, (probeStore svc s).1 = .ok b →
      (probeLookup svc s).1 = .ok (some trialPayload) →
      (trial_run (withTrace svc) (s, []) log).1.2.2 = probeRequests ∧
      (∀ e : PyError, (probeClear svc s).1 = .error e →
        (trial_run (withTrace svc) (s, []) log).1.1 = .error e) ∧
      (∀ b2 : Bool, (probeClear svc s).1 = .ok b2 →
        (trial_run (withTrace svc) (s, []) log).1.1 = .ok ())) :=
  trialBody_linear svc s

/-- A service that accepts writes but returns a different payload on lookup:
it makes the probe's assert fail. -/
def mismatchService : ServiceBehavior Unit where
  store := fun _ _ _ _ _ s => (.ok true, s)
  lookup := fun _ _ s => (.ok (some "Wrong Data"), s)
  clear := fun _ _ s => (.ok true, s)

theorem probe_linear_sequence_witness :
    (trial_run (withTrace mismatchService) ((), []) ⟨[], []⟩).1.1 =
        .error PyError.assertionFailed ∧
    (trial_run (withTrace mismatchService) ((), []) ⟨[], []⟩).1.2.2 =
        probeRequests.take 2 :=
  (probe_linear_sequence mismatchService () ⟨[], []⟩).2.2.2.2.1 true
    (some "Wrong Data") rfl rfl (by decide)

/-- C4: against the functional service, `save(x)` followed by `load()` on the
same adapter returns exactly `x`, for every adapter, payload and prior store
state; and in the spec's concrete scenario (schema "Test Schema", attributes
attr1=foo / attr2=bar, payload "Test Data", empty store) save returns true,
load returns the payload, clear returns true, and a load after the clear
finds nothing. -/
theorem save_load_round_trip (a : LibSecretAgent) (x : String) (s : SecretStore) :
    (a.save functionalService x s).1 = .ok true ∧
    (a.load functionalService (a.save functionalService x s).2).1 = .ok (some x) ∧
    (trialAgent.save functionalService "Test Data" ([] : SecretStore)).1 = .ok true ∧
    (trialAgent.load functionalService
        (trialAgent.save functionalService "Test Data" ([] : SecretStore)).2).1 =
      .ok (some "Test Data") ∧
    (trialAgent.clear functionalService
        (trialAgent.save functionalService "Test Data" ([] : SecretStore)).2).1 =
      .ok true ∧
    (trialAgent.load functionalService
        (trialAgent.clear functionalService
          (trialAgent.save functionalService "Test Data" ([] : SecretStore)).2).2).1 =
      .ok none := by
  refine ⟨rfl, ?_, rfl, rfl, rfl, rfl⟩
  show Except.ok ((List.find? (itemMatches a._schema.name a._attributes)
      (({ schemaName := a._schema.name, attributes := a._attributes, label := a._label,
          payload := x } : SecretItem) ::
        s.filter (fun it => !(itemMatches a._schema.name a._attributes it)))).map
      (fun it => it.payload)) = Except.ok (some x)
  rw [List.find?_cons_of_pos _ (itemMatches_self a._schema a._attributes a._label x)]
  rfl

theorem save_load_round_trip_witness :
    (trialAgent.load functionalService
        (trialAgent.save functionalService "hello" ([] : SecretStore)).2).1 =
      .ok (some "hello") :=
  (save_load_round_trip trialAgent "hello" []).2.1

/-- C8: against the functional service, `clear()` returns false (and leaves
the store unchanged) when no stored item matches the adapter's
(schema, attributes) filter, returns true when at least one matching item
exists, and its resulting store holds no matching item (all matching items
deleted). -/
theorem clear_returns_whether_matched (a : LibSecretAgent) (s : SecretStore) :
    ((∀ it ∈ s, itemMatches a._schema.name a._attributes it = false) →
      a.clear functionalService s = (.ok false, s)) ∧
    ((∃ it ∈ s, itemMatches a._schema.name a._attributes it = true) →
      (a.clear functionalService s).1 = .ok true) ∧
    (∀ it ∈ (a.clear functionalService s).2,
      itemMatches a._schema.name a._attributes it = false) := by
  refine ⟨?_, ?_, ?_⟩
  · intro h
    show (Except.ok (s.any (itemMatches a._schema.name a._attributes)),
        s.filter (fun it => !(itemMatches a._schema.name a._attributes it))) =
      ((.ok false : Except PyError Bool), s)
    have hany : s.any (itemMatches a._schema.name a._attributes) = false := by
      rw [List.any_eq_false]
      intro it hit
      rw [h it hit]
      exact Bool.false_ne_true
    have hfil : s.filter (fun it => !(itemMatches a._schema.name a._attributes it)) = s := by
      rw [List.filter_eq_self]
      intro it hit
      rw [h it hit]
      rfl
    rw [hany, hfil]
  · rintro ⟨it, hit, hmatch⟩
    show Except.ok (s.any (itemMatches a._schema.name a._attributes)) =
      (.ok true : Except PyError Bool)
    rw [List.any_eq_true.mpr ⟨it, hit, hmatch⟩]
  · intro it hit
    have := List.of_mem_filter hit
    simpa using this

theorem clear_returns_whether_matched_witness :
    trialAgent.clear functionalService ([] : SecretStore) = (.ok false, []) :=
  (clear_returns_whether_matched trialAgent []).1 (by intro it hit; cases hit)
